import Mathlib

/-!
Shallow embedding of the core of the RTOS kernel in
`kernel/src/syscall_thread.c`, `kernel/src/svc_handler.c` and
`kernel/src/systick.c`, together with theorems settling the claims about
its specification.

Modelling conventions:
* Machine `uint32_t` values are `Nat`s; wrap-around is written explicitly
  as `% 2 ^ 32` where the C arithmetic can overflow.
* The C global arrays (`TCB_ARRAY[16]`, `mutex_array[32]`, the `[16]`
  arrays inside `global_threads_info`) are Lean lists of the same length;
  reads use `List.getD` with the zero-initialised element as default
  (C globals are zero-initialised) and writes use `List.set`.
  An access past the C array bound is undefined behaviour in the source;
  where a claim is about such an access (`sys_mutex_init`) the embedding
  returns `Option.none` for it instead of defaulting.
* `float` arithmetic in `ub_test` is idealised as exact rational
  arithmetic (`Rat`); division by zero follows Lean's `x / 0 = 0`.
* Pointer-typed values that only flow into stack frames (`fn`, `vargp`,
  `idle_fn`, the `msp`/`PSP` stack pointers) are not part of the modelled
  state; the fields of the TCB and mutex records that the claims are about
  are all modelled.
-/

/-- Thread states, from `enum thread_state` in syscall_thread.c. -/
inductive ThreadState where
  | NEW
  | READY
  | RUNNING
  | WAITING
  | DONE
  | BLOCKED
deriving DecidableEq, Repr

/-- Thread control block: the scalar fields of `struct TCB` in
syscall_thread.c (`msp` and the stack frames it points to are machine
addresses and are not modelled; `processed` is never used by the core). -/
structure TCB where
  priority : Nat
  computation_time : Nat
  period : Nat
  svc_status : Nat
  state : ThreadState
  held_mutex_bitmap : Nat
  waiting_mutex_bitmap : Nat
deriving DecidableEq, Repr

/-- Zero-initialised TCB (C globals are zero-initialised; state 0 = NEW). -/
def TCB.zero : TCB :=
  { priority := 0, computation_time := 0, period := 0, svc_status := 0,
    state := .NEW, held_mutex_bitmap := 0, waiting_mutex_bitmap := 0 }

/-- Mutex record, from `kmutex_t` (fields used by syscall_thread.c:
`locked_by`, `prio_ceil`, `index`). -/
structure KMutex where
  locked_by : Nat
  prio_ceil : Nat
  index : Nat
deriving DecidableEq, Repr

/-- Zero-initialised mutex record. -/
def KMutex.zero : KMutex := { locked_by := 0, prio_ceil := 0, index := 0 }

/-- The `NOT_LOCKED` sentinel (`0xFFFFFFFF`). -/
def NOT_LOCKED : Nat := 4294967295

/-- The whole kernel state: `global_threads_info`, `TCB_ARRAY`,
`mutex_array` and systick's `total_count`.  (`thread_time_left_in_T` is
declared in the C struct but never read or written by the core and is
omitted.) -/
structure Kernel where
  max_threads : Nat
  max_mutexes : Nat
  stack_size : Nat
  tick_counter : Nat
  current_thread : Nat
  thread_time_left_in_C : List Nat
  thread_time : List Nat
  ready_threads : List Nat
  waiting_threads : List Nat
  mutex_index : Nat
  TCB_ARRAY : List TCB
  mutex_array : List KMutex
  total_count : Nat
deriving DecidableEq, Repr

/-- The zero-initialised kernel state (all C globals before any call). -/
def Kernel.zero : Kernel :=
  { max_threads := 0, max_mutexes := 0, stack_size := 0, tick_counter := 0,
    current_thread := 0,
    thread_time_left_in_C := List.replicate 16 0,
    thread_time := List.replicate 16 0,
    ready_threads := List.replicate 16 0,
    waiting_threads := List.replicate 16 0,
    mutex_index := 0,
    TCB_ARRAY := List.replicate 16 TCB.zero,
    mutex_array := List.replicate 32 KMutex.zero,
    total_count := 0 }

/-- Read `TCB_ARRAY[i]`. -/
def tcb (s : Kernel) (i : Nat) : TCB := s.TCB_ARRAY.getD i TCB.zero

/-- Write `TCB_ARRAY[i]`. -/
def setTCB (s : Kernel) (i : Nat) (t : TCB) : Kernel :=
  { s with TCB_ARRAY := s.TCB_ARRAY.set i t }

/-- Read `mutex_array[i]`. -/
def kmutex (s : Kernel) (i : Nat) : KMutex := s.mutex_array.getD i KMutex.zero

/-- Clearing bit `i` of a 32-bit word: `b & ~(1 << i)` in C. -/
def clearBit32 (b i : Nat) : Nat := b &&& ((2 ^ 32 - 1) ^^^ (1 <<< i))

/-- A C `int` result stored into a `uint32_t` register slot. -/
def toUInt32 (x : Int) : Nat := (x % (2 ^ 32 : Int)).toNat

/-! ## Admission: the UB test (`ub_test`, syscall_thread.c lines 227-243) -/

/-- The precalculated Liu-Layland bounds (`float ub_table[]`, idealised as
the exact decimal rationals of the source literals). -/
def ub_table : List Rat :=
  [0, 1, 8284/10000, 7798/10000, 7568/10000,
   7435/10000, 7348/10000, 7286/10000, 7241/10000, 7205/10000,
   7177/10000, 7155/10000, 7136/10000, 7119/10000, 7106/10000,
   7094/10000, 7083/10000, 7075/10000, 7066/10000, 7059/10000,
   7052/10000, 7047/10000, 7042/10000, 7037/10000, 7033/10000,
   7028/10000, 7025/10000, 7021/10000, 7018/10000, 7015/10000,
   7012/10000, 7009/10000]

/-- Whether slot `i` is counted by `ub_test`'s loop: its state is neither
`NEW` nor `DONE` (the loop `continue`s on those). -/
def ub_active (s : Kernel) (i : Nat) : Bool :=
  if (tcb s i).state = .NEW ∨ (tcb s i).state = .DONE then false else true

/-- One iteration of `ub_test`'s loop: accumulate `C_i/T_i` and bump the
count unless the slot is `NEW` or `DONE`. -/
def ub_step (s : Kernel) (acc : Rat × Nat) (i : Nat) : Rat × Nat :=
  if (tcb s i).state = .NEW ∨ (tcb s i).state = .DONE then acc
  else (acc.1 + ((tcb s i).computation_time : Rat) / ((tcb s i).period : Rat),
        acc.2 + 1)

/-- The utilization accumulator and count computed by `ub_test` before the
final comparison, starting from the candidate's `C/T` and `count = 1`. -/
def ub_eval (s : Kernel) (C T : Int) : Rat × Nat :=
  (List.range s.max_threads).foldl (ub_step s) ((C : Rat) / (T : Rat), 1)

/-- `ub_test(C, T)`: 0 when the accumulated utilization is at most
`ub_table[count]`, −1 otherwise. -/
def ub_test (s : Kernel) (C T : Int) : Int :=
  if (ub_eval s C T).1 ≤ ub_table.getD (ub_eval s C T).2 0 then 0 else -1

/-! ## Scheduler selection (`thread_scheduler`, syscall_thread.c 266-332) -/

/-- First pass of `thread_scheduler`: every BLOCKED task whose
`waiting_mutex_bitmap` is 0 becomes READY. -/
def unblock_pass (s : Kernel) : Kernel :=
  (List.range s.max_threads).foldl
    (fun s i =>
      if (tcb s i).state = .BLOCKED ∧ (tcb s i).waiting_mutex_bitmap = 0
      then setTCB s i { tcb s i with state := .READY } else s) s

/-- Second pass of `thread_scheduler`: every RUNNING task becomes READY. -/
def demote_pass (s : Kernel) : Kernel :=
  (List.range s.max_threads).foldl
    (fun s i =>
      if (tcb s i).state = .RUNNING
      then setTCB s i { tcb s i with state := .READY } else s) s

/-- The state `thread_scheduler` performs its selection on, after the
unblock and demote passes. -/
def sched_post (s : Kernel) : Kernel := demote_pass (unblock_pass s)

/-- One iteration of the selection loop; the accumulator is
`(highest_priority_thread, highest_priority)`, initially
`(-1, max_threads + 1)`. -/
def select_step (s : Kernel) (acc : Int × Nat) (i : Nat) : Int × Nat :=
  if (tcb s i).state = .READY ∧ (tcb s i).priority ≤ acc.2 ∧
      (tcb s i).waiting_mutex_bitmap = 0
  then ((i : Int), (tcb s i).priority) else acc

/-- The selection loop over slots `0 .. n-1` of state `s`. -/
def select_loop (s : Kernel) (n : Nat) : Int × Nat :=
  (List.range n).foldl (select_step s) (-1, s.max_threads + 1)

/-- `thread_scheduler`: mutates the state by the two passes, then returns
the selected slot (the chosen READY task; else the idle slot
`max_threads` when some task is WAITING or BLOCKED; else `max_threads+1`). -/
def thread_scheduler (s : Kernel) : Kernel × Nat :=
  let s1 := sched_post s
  let sel := select_loop s1 s1.max_threads
  if sel.1 ≠ -1 then (s1, sel.1.toNat)
  else if (List.range s1.max_threads).any
      (fun i => decide ((tcb s1 i).state = .WAITING ∨ (tcb s1 i).state = .BLOCKED))
  then (s1, s1.max_threads)
  else (s1, s1.max_threads + 1)

/-! ## Tick handler (`systick_c_handler`, syscall_thread.c 875-911) -/

/-- The first half of `systick_c_handler`: increment `total_count`,
bump the current thread's `thread_time`, and when the current thread is a
user task decrement its remaining compute time (the `uint32_t` subtraction
wraps); at 0 the budget is refilled to `computation_time` and the task is
made WAITING. -/
def systick_budget_phase (s : Kernel) : Kernel :=
  let s := { s with total_count := (s.total_count + 1) % 2 ^ 32 }
  let curr := s.current_thread
  let s := { s with
    thread_time := s.thread_time.set curr
      ((s.thread_time.getD curr 0 + 1) % 2 ^ 32) }
  if curr ≠ s.max_threads ∧ curr ≠ s.max_threads + 1 then
    let tl := (s.thread_time_left_in_C.getD curr 0 + 2 ^ 32 - 1) % 2 ^ 32
    if tl = 0 then
      let s := setTCB s curr { tcb s curr with state := .WAITING }
      { s with thread_time_left_in_C :=
          s.thread_time_left_in_C.set curr (tcb s curr).computation_time }
    else
      { s with thread_time_left_in_C := s.thread_time_left_in_C.set curr tl }
  else s

/-- One slot of the period-completion loop: a slot in state READY, WAITING
or RUNNING whose period divides the (just incremented) tick count has its
budget refilled to `computation_time` and its state set to READY. -/
def period_step (s : Kernel) (i : Nat) : Kernel :=
  if (tcb s i).state = .READY ∨ (tcb s i).state = .WAITING ∨
      (tcb s i).state = .RUNNING then
    if s.total_count % (tcb s i).period = 0 then
      let s := { s with thread_time_left_in_C :=
        s.thread_time_left_in_C.set i (tcb s i).computation_time }
      setTCB s i { tcb s i with state := .READY }
    else s
  else s

/-- The period-completion loop of `systick_c_handler`. -/
def period_pass (s : Kernel) : Kernel :=
  (List.range s.max_threads).foldl period_step s

/-- `systick_c_handler` (the final `pend_pendsv()` only requests the
deferred switch and does not change the modelled state). -/
def systick_c_handler (s : Kernel) : Kernel :=
  period_pass (systick_budget_phase s)

/-! ## Thread lifecycle services (syscall_thread.c) -/

/-- The stack-size rounding loop of `sys_thread_init`
(`size = 256; while (size < stack_size) size = size * 2;`), with the
`uint32_t` wrap made explicit.  The fuel (33) covers every terminating run
of the C loop; the C loop fails to terminate when `stack_size > 2^31`
(size wraps to 0), a divergent case no claim exercises. -/
def round_stack_iter : Nat → Nat → Nat → Nat
  | 0, size, _ => size
  | fuel + 1, size, stack =>
      if size < stack then round_stack_iter fuel (size * 2 % 2 ^ 32) stack
      else size

/-- Rounded stack size computed by `sys_thread_init`. -/
def round_stack (stack : Nat) : Nat := round_stack_iter 33 256 stack

/-- `initialize_mutex_array` (source name; `initialize` is spelled `init`
here): every slot gets `locked_by = NOT_LOCKED`, `prio_ceil = 0`,
`index = i`. -/
def init_mutex_array (s : Kernel) : Kernel :=
  let arr := (List.range 32).map
    (fun i => ({ locked_by := NOT_LOCKED, prio_ceil := 0, index := i } : KMutex))
  { s with mutex_array := arr }

/-- `sys_thread_init(max_threads, stack_size, idle_fn, max_mutexes)`.
The writes of `msp`, `PSP` and the idle thread's register frame are raw
machine addresses and are outside the modelled state; every modelled field
written by the source is written here, in source order.  Note that
`max_mutexes`, `max_threads`, `mutex_index` and `stack_size` are stored
into the global record *before* the validity check, and the size check
multiplies in `uint32_t` (wrapping). -/
def sys_thread_init (s : Kernel) (max_threads stack_size : Nat)
    (idle_fn : Nat) (max_mutexes : Nat) : Kernel × Int :=
  let _ := idle_fn
  let s := { s with max_mutexes := max_mutexes, max_threads := max_threads,
                    mutex_index := 0 }
  let s := { s with stack_size := round_stack stack_size }
  if 14 < max_threads ∨ 32 * 1024 < max_threads * stack_size * 4 % 2 ^ 32 then
    (s, -1)
  else
    let s := { s with tick_counter := 0 }
    let s := (List.range (max_threads + 2)).foldl
      (fun s i => setTCB s i
        { tcb s i with state := .NEW, svc_status := 0,
                       held_mutex_bitmap := 0, waiting_mutex_bitmap := 0 }) s
    let pi := max_threads
    let s := setTCB s pi
      { tcb s pi with computation_time := 1, period := 1, priority := pi }
    let s := setTCB s pi { tcb s pi with state := .READY, svc_status := 0 }
    let s := { s with thread_time := s.thread_time.set pi 0 }
    let s := { s with thread_time_left_in_C := s.thread_time_left_in_C.set pi 1 }
    let pd := max_threads + 1
    let s := setTCB s pd
      { tcb s pd with computation_time := 1, period := 1, priority := pd,
                      state := .RUNNING, svc_status := 0 }
    let s := { s with thread_time := s.thread_time.set pd 0 }
    let s := { s with thread_time_left_in_C := s.thread_time_left_in_C.set pd 1 }
    let s := (List.range max_threads).foldl
      (fun s i => { s with ready_threads := s.ready_threads.set i 400,
                           waiting_threads := s.waiting_threads.set i 400 }) s
    let s := { s with current_thread := pd }
    (init_mutex_array s, 0)

/-- `sys_thread_create(fn, prio, C, T, vargp)`; `fn` and `vargp` only flow
into the (unmodelled) user stack frame.  `C` and `T` are `uint32_t`
arguments that `ub_test` receives as `int` (value-preserving below 2^31,
which every claim input satisfies). -/
def sys_thread_create (s : Kernel) (prio C T : Nat) : Kernel × Int :=
  if s.max_threads ≤ prio ∨ (tcb s prio).state = .READY then (s, -1)
  else if ub_test s (C : Int) (T : Int) < 0 then (s, -1)
  else
    let s := setTCB s prio
      { tcb s prio with priority := prio, computation_time := C, period := T }
    let s := setTCB s prio
      { tcb s prio with svc_status := 0, state := .READY }
    let s := { s with thread_time := s.thread_time.set prio 0 }
    let s := { s with thread_time_left_in_C := s.thread_time_left_in_C.set prio C }
    (s, 0)

/-- `sys_thread_kill`: the default (main) slot calls `sys_exit(1)` (the
whole program terminates: `none`); the idle slot redirects its (unmodelled)
saved pc; a user slot becomes DONE. -/
def sys_thread_kill (s : Kernel) : Option Kernel :=
  if s.current_thread = s.max_threads + 1 then none
  else if s.current_thread = s.max_threads then some s
  else some (setTCB s s.current_thread
    { tcb s s.current_thread with state := .DONE })

/-- `sys_wait_until_next_period`: a no-op (plus warning) for the idle
slot, otherwise the caller becomes WAITING. -/
def sys_wait_until_next_period (s : Kernel) : Kernel :=
  if s.current_thread = s.max_threads then s
  else setTCB s s.current_thread
    { tcb s s.current_thread with state := .WAITING }

/-! ## Mutex services (syscall_thread.c 686-863) -/

/-- `sys_mutex_init(max_prio)`: reads `mutex_array[mutex_index]` — an
out-of-bounds read (C undefined behaviour) once `mutex_index` reaches 32,
which the embedding signals as `none`.  In bounds, a slot whose
`locked_by` is `NOT_LOCKED` is (re)initialised with the given ceiling and
handed out (`some (state, some slot)`); otherwise NULL is returned
(`some (state, none)`). -/
def sys_mutex_init (s : Kernel) (max_prio : Nat) : Option (Kernel × Option Nat) :=
  let n := s.mutex_index
  match s.mutex_array[n]? with
  | none => none
  | some mu =>
    if mu.locked_by = NOT_LOCKED then
      some ({ s with
              mutex_array := s.mutex_array.set n
                { locked_by := NOT_LOCKED, prio_ceil := max_prio, index := n },
              mutex_index := n + 1 }, some n)
    else some (s, none)

/-- How a `sys_mutex_lock` call left the kernel: each constructor is one
`return` path of the source (`blocked` is the state at the
`pend_pendsv()` suspension inside the blocking path, before the busy-wait
re-acquisition loop, which needs another thread to run). -/
inductive LockOutcome where
  | idleNoop
  | killed
  | exitKill
  | doubleLock
  | blocked
  | denied
  | acquired
deriving DecidableEq, Repr

/-- The HLP cross-resource scan of `sys_mutex_lock`: some mutex slot
`i < max_mutexes` is held (`locked_by ≠ NOT_LOCKED`), its ceiling is
numerically ≤ the caller's dynamic priority, and it is neither the
requested mutex's slot nor held by the caller. -/
def lock_denied (s : Kernel) (ct : Nat) (mu : KMutex) : Bool :=
  (List.range s.max_mutexes).any (fun i =>
    decide ((kmutex s i).locked_by ≠ NOT_LOCKED ∧
            (kmutex s i).prio_ceil ≤ (tcb s ct).priority ∧
            ¬ (i = mu.index ∨ (kmutex s i).locked_by = ct)))

/-- The uncontended tail of `sys_mutex_lock`: store the owner, raise the
caller's dynamic priority to the ceiling if it is numerically larger, set
the held bit, clear the waiting bit (all bitmap operations via the mutex
record's own `index` field, exactly as the source does). -/
def lock_acquire (s : Kernel) (m : Nat) : Kernel :=
  let ct := s.current_thread
  let mu := kmutex s m
  let arr := s.mutex_array.set m { mu with locked_by := ct }
  let s1 := { s with mutex_array := arr }
  let s2 := if mu.prio_ceil < (tcb s1 ct).priority then
    setTCB s1 ct { tcb s1 ct with priority := mu.prio_ceil } else s1
  let s3 := setTCB s2 ct
    { tcb s2 ct with
      held_mutex_bitmap := (tcb s2 ct).held_mutex_bitmap ||| (1 <<< mu.index) }
  setTCB s3 ct
    { tcb s3 ct with
      waiting_mutex_bitmap := clearBit32 (tcb s3 ct).waiting_mutex_bitmap mu.index }

/-- `sys_mutex_lock(mutex)` where `mutex` points at `mutex_array[m]`.
Field reads/writes through the pointer go to slot `m`. -/
def sys_mutex_lock (s : Kernel) (m : Nat) : Kernel × LockOutcome :=
  let ct := s.current_thread
  let mu := kmutex s m
  if ct = s.max_threads then (s, .idleNoop)
  else if ct < mu.prio_ceil then
    match sys_thread_kill s with
    | some s' => (s', .killed)
    | none => (s, .exitKill)
  else if (tcb s ct).held_mutex_bitmap.testBit mu.index then (s, .doubleLock)
  else if mu.locked_by ≠ NOT_LOCKED then
    let s := setTCB s ct { tcb s ct with state := .BLOCKED }
    let s := setTCB s ct { tcb s ct with waiting_mutex_bitmap :=
      (tcb s ct).waiting_mutex_bitmap ||| (1 <<< mu.index) }
    (s, .blocked)
  else if lock_denied s ct mu then (s, .denied)
  else (lock_acquire s m, .acquired)

/-- The priority-restoration loop of `sys_mutex_unlock`: starting from the
caller's slot index, take the least `prio_ceil` among the mutex slots
`0 ≤ i < 32` whose bit is set in `held`. -/
def unlock_restore_prio (s : Kernel) (ct held : Nat) : Nat :=
  (List.range 32).foldl
    (fun p i =>
      if held.testBit i ∧ (kmutex s i).prio_ceil < p
      then (kmutex s i).prio_ceil else p) ct

/-- One slot of the waiter pass of `sys_mutex_unlock`: a BLOCKED slot has
the released mutex's bit cleared from its `waiting_mutex_bitmap`. -/
def unlock_waiter_step (idx : Nat) (s : Kernel) (i : Nat) : Kernel :=
  if (tcb s i).state = .BLOCKED then
    setTCB s i
      { tcb s i with
        waiting_mutex_bitmap := clearBit32 (tcb s i).waiting_mutex_bitmap idx }
  else s

/-- The waiter pass of `sys_mutex_unlock`. -/
def unlock_waiter_pass (s : Kernel) (idx : Nat) : Kernel :=
  (List.range s.max_threads).foldl (unlock_waiter_step idx) s

/-- The owner-release write of `sys_mutex_unlock`: slot `m`'s `locked_by`
becomes `NOT_LOCKED`. -/
def unlock_release_owner (s : Kernel) (m : Nat) : Kernel :=
  { s with mutex_array :=
      s.mutex_array.set m { kmutex s m with locked_by := NOT_LOCKED } }

/-- The main path of `sys_mutex_unlock` (after the three warning checks):
release the owner, clear the held bit, recompute the dynamic priority,
run the waiter pass. -/
def sys_mutex_unlock_main (s : Kernel) (m : Nat) : Kernel :=
  let ct := s.current_thread
  let idx := (kmutex s m).index
  let s1 := unlock_release_owner s m
  let s2 := setTCB s1 ct
    { tcb s1 ct with
      held_mutex_bitmap := clearBit32 (tcb s1 ct).held_mutex_bitmap idx }
  let s3 := setTCB s2 ct
    { tcb s2 ct with
      priority := unlock_restore_prio s2 ct (tcb s2 ct).held_mutex_bitmap }
  unlock_waiter_pass s3 idx

/-- `sys_mutex_unlock(mutex)` where `mutex` points at `mutex_array[m]`.
The three warning paths return without changing state. -/
def sys_mutex_unlock (s : Kernel) (m : Nat) : Kernel :=
  let ct := s.current_thread
  let mu := kmutex s m
  if mu.locked_by = NOT_LOCKED then s
  else if mu.locked_by ≠ ct then s
  else if ¬ (tcb s ct).held_mutex_bitmap.testBit mu.index then s
  else sys_mutex_unlock_main s m

/-! ## Syscall dispatch (`svc_c_handler`, svc_handler.c 49-146) -/

/-- The caller's saved register frame (`struct stack_frame_map`); the SVC
number is passed separately because the source recovers it from the
instruction encoding below the saved PC, a memory access outside the
model. -/
structure SvcFrame where
  R0 : Nat
  R1 : Nat
  R2 : Nat
  R3 : Nat
  R12 : Nat
  LR : Nat
  PC : Nat
  PSR : Nat
  fifth_arg : Nat
deriving DecidableEq, Repr

/-- Result of one `svc_c_handler` invocation. `handled` carries the
(possibly updated) frame and kernel state; `external` marks dispatch to a
service outside the modelled core (sbrk/write/read/servo); `exited` is
`sys_exit`; `assertFailed` is the `ASSERT(0)` default arm. -/
inductive SvcOutcome where
  | handled (frame : SvcFrame) (k : Kernel)
  | external (svc : Nat) (frame : SvcFrame) (k : Kernel)
  | exited (code : Nat)
  | assertFailed (svc : Nat)
deriving DecidableEq, Repr

/-- `svc_c_handler`, by SVC number (the `set_svc_status(1)` call touches a
hardware-status global outside the model).  The bodies of cases 13, 14 and
15 are commented out in the source: no mutex service is called and the
saved `R0` is left as it was. -/
def svc_c_handler (svc_number : Nat) (frame : SvcFrame) (s : Kernel) :
    SvcOutcome :=
  match svc_number with
  | 0 => .external 0 frame s
  | 1 => .external 1 frame s
  | 2 => .handled { frame with R0 := 1 } s
  | 3 => .handled { frame with R0 := 1 } s
  | 4 => .handled { frame with R0 := 1 } s
  | 5 => .handled { frame with R0 := 1 } s
  | 6 => .external 6 frame s
  | 7 => .exited frame.R0
  | 9 =>
    let r := sys_thread_init s frame.R0 frame.R1 frame.R2 frame.R3
    .handled { frame with R0 := toUInt32 r.2 } r.1
  | 10 =>
    let r := sys_thread_create s frame.R1 frame.R2 frame.R3
    .handled { frame with R0 := toUInt32 r.2 } r.1
  | 11 =>
    match sys_thread_kill s with
    | some s' => .handled frame s'
    | none => .exited 1
  | 12 => .handled { frame with R0 := 0 } { s with total_count := 0 }
  | 13 => .handled frame s
  | 14 => .handled frame s
  | 15 => .handled frame s
  | 16 => .handled frame (sys_wait_until_next_period s)
  | 17 => .handled { frame with R0 := s.total_count } s
  | 19 => .handled { frame with R0 := (tcb s s.current_thread).priority } s
  | 20 => .handled { frame with R0 := s.thread_time.getD s.current_thread 0 } s
  | 22 => .external 22 frame s
  | 23 => .external 23 frame s
  | n => .assertFailed n

/-! ## Abbreviations used by the statements -/

/-- The per-slot utilization `C_i/T_i` summed by `ub_test`. -/
def ubU (s : Kernel) (i : Nat) : Rat :=
  ((tcb s i).computation_time : Rat) / ((tcb s i).period : Rat)

/-! ## Concrete states used by counterexamples and witnesses -/

/-- A kernel state produced by `sys_thread_init(2, 256, NULL, 32)` from the
zero-initialised globals. -/
def kinit : Kernel := (sys_thread_init Kernel.zero 2 256 0 32).1

/-- A saved frame whose `R0` holds 3 (e.g. a requested mutex ceiling). -/
def fr1 : SvcFrame :=
  { R0 := 3, R1 := 0, R2 := 0, R3 := 0, R12 := 0, LR := 0, PC := 0, PSR := 0,
    fifth_arg := 0 }

/-- Iterated `sys_mutex_init(0)` calls from `kinit` (the state component;
the handle is dropped, and a NULL/out-of-bounds result leaves the state). -/
def mutex_init_iter : Nat → Kernel
  | 0 => kinit
  | n + 1 =>
    match sys_mutex_init (mutex_init_iter n) 0 with
    | some r => r.1
    | none => mutex_init_iter n

/-- A READY task slot with dynamic priority `p` (for the C2 tie). -/
def tcbREADY (p : Nat) : TCB :=
  { priority := p, computation_time := 1, period := 2, svc_status := 0,
    state := .READY, held_mutex_bitmap := 0, waiting_mutex_bitmap := 0 }

/-- Two READY tasks in slots 0 and 1 with equal dynamic priority 0. -/
def exC2 : Kernel :=
  setTCB (setTCB { Kernel.zero with max_threads := 2, current_thread := 3 }
    0 (tcbREADY 0)) 1 (tcbREADY 0)

/-- A BLOCKED task in slot 0 with C = 3, T = 2, one tick before its period
boundary (the idle/main slot is current, so no budget is decremented). -/
def exC4 : Kernel :=
  let base := { Kernel.zero with
    max_threads := 1, current_thread := 2, total_count := 1,
    thread_time_left_in_C := List.replicate 16 1 }
  setTCB base 0
    { priority := 0, computation_time := 3, period := 2, svc_status := 0,
      state := .BLOCKED, held_mutex_bitmap := 0, waiting_mutex_bitmap := 1 }

/-- The same state with the slot WAITING (and no pending mutex) instead of
BLOCKED: here the period release does fire. -/
def exC4w : Kernel :=
  setTCB exC4 0 { tcb exC4 0 with state := .WAITING, waiting_mutex_bitmap := 0 }

/-- One admitted slot, zero-initialised TCBs: `thread_create(0, C=0, T=2)`
is accepted from here. -/
def exC5 : Kernel := { Kernel.zero with max_threads := 1 }

/-- The state `sys_thread_create exC5 0 0 2` produces (spelled out so the
later evaluations are mutex- and rational-free): slot 0 READY with C = 0,
T = 2, budget 0. -/
def exC5mid : Kernel :=
  setTCB exC5 0
    { priority := 0, computation_time := 0, period := 2, svc_status := 0,
      state := .READY, held_mutex_bitmap := 0, waiting_mutex_bitmap := 0 }

/-- The state after that creation, once the scheduler has dispatched the
C = 0 task (current thread 0, slot 0 RUNNING). -/
def exC5run : Kernel :=
  setTCB { exC5mid with current_thread := 0 } 0
    { tcb exC5mid 0 with state := .RUNNING }

/-- Task 2 (dynamic priority 2) RUNNING; mutex 0 is held by task 1 with
ceiling 0; mutex 1 has ceiling 2. -/
def exC6base : Kernel :=
  let base := { Kernel.zero with
    max_threads := 3, max_mutexes := 2, current_thread := 2 }
  let s := setTCB base 2
    { priority := 2, computation_time := 1, period := 5, svc_status := 0,
      state := .RUNNING, held_mutex_bitmap := 0, waiting_mutex_bitmap := 0 }
  let arr := (s.mutex_array.set 0 { locked_by := 1, prio_ceil := 0, index := 0 })
  { s with mutex_array := arr }

/-- ... and mutex 1 additionally owned by task 0: the HLP condition holds
*and* the requested mutex is owned. -/
def exC6owned : Kernel :=
  { exC6base with mutex_array :=
      exC6base.mutex_array.set 1 { locked_by := 0, prio_ceil := 2, index := 1 } }

/-- ... and mutex 1 free: the HLP condition holds and the requested mutex
is unowned. -/
def exC6free : Kernel :=
  { exC6base with mutex_array :=
      exC6base.mutex_array.set 1 { locked_by := NOT_LOCKED, prio_ceil := 2, index := 1 } }

/-- Task 4 RUNNING with dynamic priority 1, holding mutex 3 (ceiling 1);
mutex 1 is free with ceiling 2. -/
def exC7 : Kernel :=
  let base := { Kernel.zero with
    max_threads := 5, max_mutexes := 4, current_thread := 4 }
  let s := setTCB base 4
    { priority := 1, computation_time := 1, period := 5, svc_status := 0,
      state := .RUNNING, held_mutex_bitmap := 8, waiting_mutex_bitmap := 0 }
  let arr := (List.range 32).map
    (fun i => ({ locked_by := NOT_LOCKED, prio_ceil := 0, index := i } : KMutex))
  let arr := arr.set 1 { locked_by := NOT_LOCKED, prio_ceil := 2, index := 1 }
  let arr := arr.set 3 { locked_by := 4, prio_ceil := 1, index := 3 }
  { s with mutex_array := arr }

/-- A distinctive pre-`thread_init` state (to observe which fields a
rejected `thread_init` call clobbers). -/
def exC8 : Kernel :=
  { Kernel.zero with max_threads := 5, max_mutexes := 7, mutex_index := 3,
                     stack_size := 1024 }

/-- A WAITING task in slot 0 with C = 1, T = 4 of a two-slot kernel (for
the C10 witness: re-creating slot 0 double-counts it). -/
def exC10 : Kernel :=
  setTCB { Kernel.zero with max_threads := 2 } 0
    { priority := 0, computation_time := 1, period := 4, svc_status := 0,
      state := .WAITING, held_mutex_bitmap := 0, waiting_mutex_bitmap := 0 }

/-! ## Generic helper lemmas -/

theorem getD_set_self {α : Type} {l : List α} {i : Nat} (a d : α)
    (h : i < l.length) : (l.set i a).getD i d = a := by
  simp [List.getD_eq_getElem?_getD, List.getElem?_set_self h]

theorem getD_set_ne {α : Type} {l : List α} {i j : Nat} (a d : α)
    (h : i ≠ j) : (l.set i a).getD j d = l.getD j d := by
  simp [List.getD_eq_getElem?_getD, List.getElem?_set_ne h]

theorem tcb_setTCB_self (s : Kernel) (i : Nat) (t : TCB)
    (h : i < s.TCB_ARRAY.length) : tcb (setTCB s i t) i = t := by
  show (s.TCB_ARRAY.set i t).getD i TCB.zero = t
  exact getD_set_self _ _ h

theorem tcb_setTCB_ne (s : Kernel) (i j : Nat) (t : TCB) (h : i ≠ j) :
    tcb (setTCB s i t) j = tcb s j := by
  show (s.TCB_ARRAY.set i t).getD j TCB.zero = s.TCB_ARRAY.getD j TCB.zero
  exact getD_set_ne _ _ h

/-! ## UB-test characterization (claims C3, C10) -/

theorem ub_foldl (s : Kernel) (l : List Nat) (u : Rat) (c : Nat) :
    l.foldl (ub_step s) (u, c) =
      (u + ((l.filter (ub_active s)).map (ubU s)).sum,
       c + (l.filter (ub_active s)).length) := by
  induction l generalizing u c with
  | nil => simp
  | cons a t ih =>
    rw [List.foldl_cons]
    by_cases h : (tcb s a).state = .NEW ∨ (tcb s a).state = .DONE
    · have hstep : ub_step s (u, c) a = (u, c) := if_pos h
      have hf : (a :: t).filter (ub_active s) = t.filter (ub_active s) :=
        List.filter_cons_of_neg (by simp [ub_active, h])
      rw [hstep, ih, hf]
    · have hstep : ub_step s (u, c) a = (u + ubU s a, c + 1) := by
        simp [ub_step, ubU, h]
      have hf : (a :: t).filter (ub_active s) = a :: t.filter (ub_active s) :=
        List.filter_cons_of_pos (by simp [ub_active, h])
      rw [hstep, ih, hf, List.map_cons, List.sum_cons, List.length_cons]
      simp only [Prod.mk.injEq]
      exact ⟨by ring, by omega⟩

theorem ub_eval_eq (s : Kernel) (C T : Int) :
    ub_eval s C T =
      ((C : Rat) / (T : Rat) +
          (((List.range s.max_threads).filter (ub_active s)).map (ubU s)).sum,
       ((List.range s.max_threads).filter (ub_active s)).length + 1) := by
  unfold ub_eval
  rw [ub_foldl]
  simp [Nat.add_comm]

/-- C3: `ub_test(C, T)` returns 0 iff `C/T` plus the per-slot utilizations
of every slot (below `max_threads`) whose state is neither NEW nor DONE is
at most `UB[n]` where `n` counts those slots plus the candidate, with
`UB[0] = 0` and `UB[1] = 1` (the `float` arithmetic of the source is
idealised as exact rational arithmetic). -/
theorem ub_test_characterization :
    ub_table.getD 0 0 = 0 ∧ ub_table.getD 1 0 = 1 ∧
    ∀ (s : Kernel) (C T : Int),
      ub_test s C T = 0 ↔
        (C : Rat) / (T : Rat) +
            (((List.range s.max_threads).filter (ub_active s)).map (ubU s)).sum ≤
          ub_table.getD
            (((List.range s.max_threads).filter (ub_active s)).length + 1) 0 := by
  refine ⟨rfl, rfl, fun s C T => ?_⟩
  rw [ub_test, ub_eval_eq]
  split
  · exact iff_of_true rfl ‹_›
  · exact iff_of_false (by decide) ‹_›

theorem ub_filter_split (s : Kernel) (p : Nat) (hp : ub_active s p = true)
    (l : List Nat) :
    ((l.filter (ub_active s)).map (ubU s)).sum =
        (l.count p : Rat) * ubU s p +
          ((l.filter (fun i => ub_active s i && decide (i ≠ p))).map (ubU s)).sum ∧
      (l.filter (ub_active s)).length =
        l.count p +
          (l.filter (fun i => ub_active s i && decide (i ≠ p))).length := by
  induction l with
  | nil => simp
  | cons a t ih =>
    obtain ⟨ih1, ih2⟩ := ih
    by_cases hap : a = p
    · subst hap
      have h1 : (a :: t).filter (ub_active s) = a :: t.filter (ub_active s) :=
        List.filter_cons_of_pos hp
      have h2 : (a :: t).filter (fun i => ub_active s i && decide (i ≠ a)) =
          t.filter (fun i => ub_active s i && decide (i ≠ a)) :=
        List.filter_cons_of_neg (by simp)
      rw [h1, h2, List.map_cons, List.sum_cons, List.length_cons,
          List.count_cons_self, ih1, ih2]
      constructor
      · push_cast; ring
      · omega
    · have hcnt : (a :: t).count p = t.count p :=
        List.count_cons_of_ne (fun h => hap h.symm) t
      by_cases hact : ub_active s a = true
      · have h1 : (a :: t).filter (ub_active s) = a :: t.filter (ub_active s) :=
          List.filter_cons_of_pos hact
        have h2 : (a :: t).filter (fun i => ub_active s i && decide (i ≠ p)) =
            a :: t.filter (fun i => ub_active s i && decide (i ≠ p)) :=
          List.filter_cons_of_pos (by simp [hact, hap])
        rw [h1, h2, List.map_cons, List.sum_cons, List.map_cons, List.sum_cons,
            List.length_cons, List.length_cons, hcnt, ih1, ih2]
        constructor
        · ring
        · omega
      · have h1 : (a :: t).filter (ub_active s) = t.filter (ub_active s) :=
          List.filter_cons_of_neg (by simp [hact])
        have h2 : (a :: t).filter (fun i => ub_active s i && decide (i ≠ p)) =
            t.filter (fun i => ub_active s i && decide (i ≠ p)) :=
          List.filter_cons_of_neg (by simp [hact])
        rw [h1, h2, hcnt]
        exact ⟨ih1, ih2⟩

/-- C10: `thread_create` aimed at a slot whose state is WAITING, RUNNING
or BLOCKED is not rejected as occupied (only a READY slot is): its result
is decided by the UB test alone; and the UB test then double-counts the
task being replaced — the accumulated utilization is the candidate's `C/T`
plus the target slot's own `C/T` plus the other (non-NEW, non-DONE)
slots', and the bound index counts both the candidate and the target
slot. -/
theorem thread_create_double_count (s : Kernel) (prio C T : Nat)
    (hp : prio < s.max_threads)
    (hstate : (tcb s prio).state = .WAITING ∨ (tcb s prio).state = .RUNNING ∨
      (tcb s prio).state = .BLOCKED) :
    (sys_thread_create s prio C T).2 =
      (if ub_test s (C : Int) (T : Int) < 0 then (-1 : Int) else 0) ∧
    ub_eval s (C : Int) (T : Int) =
      ((C : Rat) / (T : Rat) + ubU s prio +
        (((List.range s.max_threads).filter
          (fun i => ub_active s i && decide (i ≠ prio))).map (ubU s)).sum,
       2 + ((List.range s.max_threads).filter
        (fun i => ub_active s i && decide (i ≠ prio))).length) := by
  have hact : ub_active s prio = true := by
    unfold ub_active
    rcases hstate with h | h | h <;> simp [h]
  have hcount : (List.range s.max_threads).count prio = 1 :=
    List.count_eq_one_of_mem (List.nodup_range _) (List.mem_range.mpr hp)
  obtain ⟨hs1, hs2⟩ := ub_filter_split s prio hact (List.range s.max_threads)
  refine ⟨?_, ?_⟩
  · have hocc : ¬ (s.max_threads ≤ prio ∨ (tcb s prio).state = .READY) := by
      rcases hstate with h | h | h <;> simp [h] <;> omega
    unfold sys_thread_create
    rw [if_neg hocc]
    split <;> rfl
  · rw [ub_eval_eq, hs1, hs2, hcount]
    simp only [Prod.mk.injEq]
    constructor
    · push_cast
      ring
    · omega

/-! ## Scheduler selection lemmas (claim C2) -/

theorem select_loop_succ (s : Kernel) (n : Nat) :
    select_loop s (n + 1) = select_step s (select_loop s n) n := by
  unfold select_loop
  rw [List.range_succ, List.foldl_append, List.foldl_cons, List.foldl_nil]

theorem select_loop_inv (s : Kernel)
    (hB : ∀ i, i < s.max_threads → (tcb s i).priority ≤ s.max_threads + 1)
    (n : Nat) (hn : n ≤ s.max_threads) :
    ((∀ i, i < n → ¬ ((tcb s i).state = .READY ∧
        (tcb s i).waiting_mutex_bitmap = 0)) ∧
      select_loop s n = (-1, s.max_threads + 1)) ∨
    (∃ j, j < n ∧ (tcb s j).state = .READY ∧
      (tcb s j).waiting_mutex_bitmap = 0 ∧
      (select_loop s n).1 = (j : Int) ∧
      (select_loop s n).2 = (tcb s j).priority ∧
      (∀ i, i < n → (tcb s i).state = .READY →
        (tcb s i).waiting_mutex_bitmap = 0 →
        (tcb s j).priority ≤ (tcb s i).priority ∧
        ((tcb s i).priority = (tcb s j).priority → i ≤ j))) := by
  induction n with
  | zero => exact Or.inl ⟨by omega, rfl⟩
  | succ n ih =>
    have hnm : n < s.max_threads := Nat.lt_of_lt_of_le (Nat.lt_succ_self n) hn
    rcases ih (Nat.le_of_succ_le hn) with ⟨hnone, heq⟩ | ⟨j, hj, hjR, hjW, h1, h2, hmin⟩
    · by_cases hc : (tcb s n).state = .READY ∧ (tcb s n).waiting_mutex_bitmap = 0
      · refine Or.inr ⟨n, Nat.lt_succ_self n, hc.1, hc.2, ?_, ?_, ?_⟩
        · rw [select_loop_succ, heq]
          unfold select_step
          rw [if_pos ⟨hc.1, hB n hnm, hc.2⟩]
        · rw [select_loop_succ, heq]
          unfold select_step
          rw [if_pos ⟨hc.1, hB n hnm, hc.2⟩]
        · intro i hi hiR hiW
          rcases Nat.lt_succ_iff_lt_or_eq.mp hi with h | h
          · exact absurd ⟨hiR, hiW⟩ (hnone i h)
          · subst h
            exact ⟨Nat.le_refl _, fun _ => Nat.le_refl _⟩
      · refine Or.inl ⟨?_, ?_⟩
        · intro i hi
          rcases Nat.lt_succ_iff_lt_or_eq.mp hi with h | h
          · exact hnone i h
          · subst h; exact hc
        · rw [select_loop_succ, heq]
          unfold select_step
          rw [if_neg]
          intro hcon
          exact hc ⟨hcon.1, hcon.2.2⟩
    · by_cases hc : (tcb s n).state = .READY ∧
        (tcb s n).priority ≤ (select_loop s n).2 ∧
        (tcb s n).waiting_mutex_bitmap = 0
      · refine Or.inr ⟨n, Nat.lt_succ_self n, hc.1, hc.2.2, ?_, ?_, ?_⟩
        · rw [select_loop_succ]
          unfold select_step
          rw [if_pos hc]
        · rw [select_loop_succ]
          unfold select_step
          rw [if_pos hc]
        · intro i hi hiR hiW
          have hnj : (tcb s n).priority ≤ (tcb s j).priority := h2 ▸ hc.2.1
          rcases Nat.lt_succ_iff_lt_or_eq.mp hi with h | h
          · have := (hmin i h hiR hiW).1
            exact ⟨Nat.le_trans hnj this, fun _ => Nat.le_of_lt_succ hi⟩
          · subst h
            exact ⟨Nat.le_refl _, fun _ => Nat.le_refl _⟩
      · refine Or.inr ⟨j, Nat.lt_succ_of_lt hj, hjR, hjW, ?_, ?_, ?_⟩
        · rw [select_loop_succ]
          unfold select_step
          rw [if_neg hc]
          exact h1
        · rw [select_loop_succ]
          unfold select_step
          rw [if_neg hc]
          exact h2
        · intro i hi hiR hiW
          rcases Nat.lt_succ_iff_lt_or_eq.mp hi with h | h
          · exact hmin i h hiR hiW
          · subst h
            have hlt : (tcb s j).priority < (tcb s i).priority := by
              rcases Nat.lt_or_ge (tcb s j).priority (tcb s i).priority with h' | h'
              · exact h'
              · exact absurd ⟨hiR, h2 ▸ h', hiW⟩ hc
            exact ⟨Nat.le_of_lt hlt, fun he => absurd he (by omega)⟩

theorem foldl_preserves_max (f : Kernel → Nat → Kernel)
    (h : ∀ s i, (f s i).max_threads = s.max_threads) :
    ∀ (l : List Nat) (s : Kernel), (l.foldl f s).max_threads = s.max_threads
  | [], _ => rfl
  | a :: t, s => by
    rw [List.foldl_cons, foldl_preserves_max f h t (f s a), h]

theorem sched_post_max (s : Kernel) :
    (sched_post s).max_threads = s.max_threads := by
  unfold sched_post demote_pass unblock_pass
  rw [foldl_preserves_max _ (fun k i => by dsimp only; split <;> rfl),
      foldl_preserves_max _ (fun k i => by dsimp only; split <;> rfl)]

theorem thread_scheduler_snd (s : Kernel) :
    (thread_scheduler s).2 =
      (if (select_loop (sched_post s) (sched_post s).max_threads).1 ≠ -1
       then (select_loop (sched_post s) (sched_post s).max_threads).1.toNat
       else if (List.range (sched_post s).max_threads).any
           (fun i => decide ((tcb (sched_post s) i).state = .WAITING ∨
             (tcb (sched_post s) i).state = .BLOCKED))
         then (sched_post s).max_threads
         else (sched_post s).max_threads + 1) := by
  simp only [thread_scheduler]
  split_ifs <;> rfl

/-- C2 (amended): after the unblock and demote passes, the slot returned
by `thread_scheduler` is a READY task with empty `waiting_mutexes` whose
`dyn_prio` is numerically smallest, with ties between equal `dyn_prio`
values broken in favour of the HIGHER slot index (the scan uses `<=` and
keeps the last minimum); if no such task exists it is the idle slot
(`max_threads`) when some task is WAITING or BLOCKED, and otherwise the
main slot (`max_threads + 1`).  The hypothesis bounds every task's
`dyn_prio` by `max_threads + 1`, which holds in every reachable state
(dynamic priorities only move down from the slot index). -/
theorem scheduler_selection_amended (s : Kernel)
    (hB : ∀ i, i < s.max_threads →
      (tcb (sched_post s) i).priority ≤ s.max_threads + 1) :
    ((∃ i, i < s.max_threads ∧ (tcb (sched_post s) i).state = .READY ∧
        (tcb (sched_post s) i).waiting_mutex_bitmap = 0) →
      ∃ j, (thread_scheduler s).2 = j ∧ j < s.max_threads ∧
        (tcb (sched_post s) j).state = .READY ∧
        (tcb (sched_post s) j).waiting_mutex_bitmap = 0 ∧
        (∀ i, i < s.max_threads → (tcb (sched_post s) i).state = .READY →
          (tcb (sched_post s) i).waiting_mutex_bitmap = 0 →
          (tcb (sched_post s) j).priority ≤ (tcb (sched_post s) i).priority ∧
          ((tcb (sched_post s) i).priority = (tcb (sched_post s) j).priority →
            i ≤ j))) ∧
    ((¬ ∃ i, i < s.max_threads ∧ (tcb (sched_post s) i).state = .READY ∧
        (tcb (sched_post s) i).waiting_mutex_bitmap = 0) →
      ((∃ i, i < s.max_threads ∧ ((tcb (sched_post s) i).state = .WAITING ∨
          (tcb (sched_post s) i).state = .BLOCKED)) →
        (thread_scheduler s).2 = s.max_threads) ∧
      ((¬ ∃ i, i < s.max_threads ∧ ((tcb (sched_post s) i).state = .WAITING ∨
          (tcb (sched_post s) i).state = .BLOCKED)) →
        (thread_scheduler s).2 = s.max_threads + 1)) := by
  have hmax : (sched_post s).max_threads = s.max_threads := sched_post_max s
  have hB' : ∀ i, i < (sched_post s).max_threads →
      (tcb (sched_post s) i).priority ≤ (sched_post s).max_threads + 1 := by
    rw [hmax]; exact hB
  have hinv := select_loop_inv (sched_post s) hB' (sched_post s).max_threads
    (Nat.le_refl _)
  constructor
  · rintro ⟨i, hi, hiR, hiW⟩
    rcases hinv with ⟨hnone, _⟩ | ⟨j, hj, hjR, hjW, h1, h2, hmin⟩
    · exact absurd ⟨hiR, hiW⟩ (hnone i (hmax ▸ hi))
    · refine ⟨j, ?_, hmax ▸ hj, hjR, hjW, ?_⟩
      · rw [thread_scheduler_snd, if_pos (by rw [h1]; omega), h1]
        simp
      · intro k hk hkR hkW
        exact hmin k (hmax ▸ hk) hkR hkW
  · intro hno
    rcases hinv with ⟨_, heq⟩ | ⟨j, hj, hjR, hjW, _, _, _⟩
    · have hsel : ¬ ((select_loop (sched_post s) (sched_post s).max_threads).1 ≠ -1) := by
        rw [heq]; simp
      constructor
      · rintro ⟨i, hi, hwb⟩
        rw [thread_scheduler_snd, if_neg hsel, if_pos, hmax]
        rw [List.any_eq_true]
        exact ⟨i, List.mem_range.mpr (hmax ▸ hi), by simpa using hwb⟩
      · intro hnwb
        rw [thread_scheduler_snd, if_neg hsel, if_neg, hmax]
        rw [List.any_eq_true]
        rintro ⟨i, hmem, hdec⟩
        exact hnwb ⟨i, hmax ▸ List.mem_range.mp hmem, by simpa using hdec⟩
    · exact absurd ⟨j, hmax ▸ hj, hjR, hjW⟩ hno

/-- C2 counterexample: slots 0 and 1 are both READY with equal dynamic
priority and empty waiting bitmaps, yet the scheduler returns slot 1 —
the tie is broken in favour of the higher slot index, not the lower. -/
theorem scheduler_tie_prefers_higher_index :
    (tcb (sched_post exC2) 0).state = .READY ∧
    (tcb (sched_post exC2) 1).state = .READY ∧
    (tcb (sched_post exC2) 0).waiting_mutex_bitmap = 0 ∧
    (tcb (sched_post exC2) 1).waiting_mutex_bitmap = 0 ∧
    (tcb (sched_post exC2) 0).priority = (tcb (sched_post exC2) 1).priority ∧
    exC2.max_threads = 2 ∧
    (thread_scheduler exC2).2 = 1 := by decide

/-- Witness for the amended C2 theorem at the concrete state `exC2`. -/
theorem scheduler_selection_amended_witness :
    (∀ i, i < exC2.max_threads →
      (tcb (sched_post exC2) i).priority ≤ exC2.max_threads + 1) ∧
    (((∃ i, i < exC2.max_threads ∧ (tcb (sched_post exC2) i).state = .READY ∧
        (tcb (sched_post exC2) i).waiting_mutex_bitmap = 0) →
      ∃ j, (thread_scheduler exC2).2 = j ∧ j < exC2.max_threads ∧
        (tcb (sched_post exC2) j).state = .READY ∧
        (tcb (sched_post exC2) j).waiting_mutex_bitmap = 0 ∧
        (∀ i, i < exC2.max_threads →
          (tcb (sched_post exC2) i).state = .READY →
          (tcb (sched_post exC2) i).waiting_mutex_bitmap = 0 →
          (tcb (sched_post exC2) j).priority ≤ (tcb (sched_post exC2) i).priority ∧
          ((tcb (sched_post exC2) i).priority = (tcb (sched_post exC2) j).priority →
            i ≤ j))) ∧
    ((¬ ∃ i, i < exC2.max_threads ∧ (tcb (sched_post exC2) i).state = .READY ∧
        (tcb (sched_post exC2) i).waiting_mutex_bitmap = 0) →
      ((∃ i, i < exC2.max_threads ∧ ((tcb (sched_post exC2) i).state = .WAITING ∨
          (tcb (sched_post exC2) i).state = .BLOCKED)) →
        (thread_scheduler exC2).2 = exC2.max_threads) ∧
      ((¬ ∃ i, i < exC2.max_threads ∧ ((tcb (sched_post exC2) i).state = .WAITING ∨
          (tcb (sched_post exC2) i).state = .BLOCKED)) →
        (thread_scheduler exC2).2 = exC2.max_threads + 1))) :=
  ⟨by decide, scheduler_selection_amended exC2 (by decide)⟩

/-! ## Period-release lemmas (claim C4) -/

theorem period_step_total (s : Kernel) (j : Nat) :
    (period_step s j).total_count = s.total_count := by
  unfold period_step
  split
  · split <;> rfl
  · rfl

theorem period_step_len1 (s : Kernel) (j : Nat) :
    (period_step s j).TCB_ARRAY.length = s.TCB_ARRAY.length := by
  unfold period_step
  split
  · split
    · simp [setTCB]
    · rfl
  · rfl

theorem period_step_len2 (s : Kernel) (j : Nat) :
    (period_step s j).thread_time_left_in_C.length =
      s.thread_time_left_in_C.length := by
  unfold period_step
  split
  · split
    · simp [setTCB]
    · rfl
  · rfl

theorem period_step_other (s : Kernel) (j i : Nat) (h : j ≠ i) :
    tcb (period_step s j) i = tcb s i ∧
    (period_step s j).thread_time_left_in_C.getD i 0 =
      s.thread_time_left_in_C.getD i 0 := by
  unfold period_step
  split
  · split
    · constructor
      · rw [tcb_setTCB_ne _ _ _ _ h]
        rfl
      · show (s.thread_time_left_in_C.set j _).getD i 0 = _
        exact getD_set_ne _ _ h
    · exact ⟨rfl, rfl⟩
  · exact ⟨rfl, rfl⟩

theorem period_fold_untouched (l : List Nat) (s : Kernel) (i : Nat)
    (hi : i ∉ l) :
    tcb (l.foldl period_step s) i = tcb s i ∧
    (l.foldl period_step s).thread_time_left_in_C.getD i 0 =
      s.thread_time_left_in_C.getD i 0 := by
  induction l generalizing s with
  | nil => exact ⟨rfl, rfl⟩
  | cons a t ih =>
    have hai : a ≠ i := fun h => hi (h ▸ List.mem_cons_self a t)
    have hit : i ∉ t := fun h => hi (List.mem_cons_of_mem a h)
    rw [List.foldl_cons]
    obtain ⟨h1, h2⟩ := ih (period_step s a) hit
    obtain ⟨g1, g2⟩ := period_step_other s a i hai
    exact ⟨h1.trans g1, h2.trans g2⟩

theorem period_step_release (s : Kernel) (i : Nat)
    (h1 : i < s.TCB_ARRAY.length) (h2 : i < s.thread_time_left_in_C.length)
    (hst : (tcb s i).state = .READY ∨ (tcb s i).state = .WAITING ∨
      (tcb s i).state = .RUNNING)
    (hmod : s.total_count % (tcb s i).period = 0) :
    (tcb (period_step s i) i).state = .READY ∧
    (period_step s i).thread_time_left_in_C.getD i 0 =
      (tcb s i).computation_time := by
  unfold period_step
  rw [if_pos hst, if_pos hmod]
  constructor
  · rw [tcb_setTCB_self]
    exact h1
  · show (s.thread_time_left_in_C.set i (tcb s i).computation_time).getD i 0 =
        (tcb s i).computation_time
    exact getD_set_self _ _ h2

theorem period_fold_release (l : List Nat) (s : Kernel) (i : Nat)
    (hmem : i ∈ l) (hnd : l.Nodup)
    (h1 : i < s.TCB_ARRAY.length) (h2 : i < s.thread_time_left_in_C.length)
    (hst : (tcb s i).state = .READY ∨ (tcb s i).state = .WAITING ∨
      (tcb s i).state = .RUNNING)
    (hmod : s.total_count % (tcb s i).period = 0) :
    (tcb (l.foldl period_step s) i).state = .READY ∧
    (l.foldl period_step s).thread_time_left_in_C.getD i 0 =
      (tcb s i).computation_time := by
  induction l generalizing s with
  | nil => exact absurd hmem (List.not_mem_nil i)
  | cons a t ih =>
    rw [List.foldl_cons]
    by_cases hai : a = i
    · subst hai
      have hat : a ∉ t := (List.nodup_cons.mp hnd).1
      obtain ⟨r1, r2⟩ := period_step_release s a h1 h2 hst hmod
      obtain ⟨u1, u2⟩ := period_fold_untouched t (period_step s a) a hat
      exact ⟨by rw [u1, r1], by rw [u2, r2]⟩
    · have hit : i ∈ t := by
        rcases List.mem_cons.mp hmem with h | h
        · exact absurd h.symm hai
        · exact h
      obtain ⟨o1, o2⟩ := period_step_other s a i hai
      have h1' : i < (period_step s a).TCB_ARRAY.length := by
        rw [period_step_len1]; exact h1
      have h2' : i < (period_step s a).thread_time_left_in_C.length := by
        rw [period_step_len2]; exact h2
      have hst' : (tcb (period_step s a) i).state = .READY ∨
          (tcb (period_step s a) i).state = .WAITING ∨
          (tcb (period_step s a) i).state = .RUNNING := by
        rw [o1]; exact hst
      have hmod' : (period_step s a).total_count %
          (tcb (period_step s a) i).period = 0 := by
        rw [o1, period_step_total]; exact hmod
      obtain ⟨c1, c2⟩ := ih (period_step s a) hit (List.nodup_cons.mp hnd).2
        h1' h2' hst' hmod'
      rw [o1] at c2
      exact ⟨c1, c2⟩

/-- C4 (amended): at a period boundary the tick handler's period-release
pass leaves a task READY with its budget refilled to C — but only for
tasks whose state when the boundary arrives (after the budget phase of the
same tick) is READY, WAITING or RUNNING; BLOCKED (and NEW/DONE) tasks are
not released. -/
theorem period_release_amended (s : Kernel) (i : Nat)
    (hi : i < (systick_budget_phase s).max_threads)
    (h1 : i < (systick_budget_phase s).TCB_ARRAY.length)
    (h2 : i < (systick_budget_phase s).thread_time_left_in_C.length)
    (hst : (tcb (systick_budget_phase s) i).state = .READY ∨
      (tcb (systick_budget_phase s) i).state = .WAITING ∨
      (tcb (systick_budget_phase s) i).state = .RUNNING)
    (hT : 0 < (tcb (systick_budget_phase s) i).period)
    (hmod : (systick_budget_phase s).total_count %
      (tcb (systick_budget_phase s) i).period = 0) :
    (tcb (systick_c_handler s) i).state = .READY ∧
    (systick_c_handler s).thread_time_left_in_C.getD i 0 =
      (tcb (systick_budget_phase s) i).computation_time := by
  have := hT
  unfold systick_c_handler period_pass
  exact period_fold_release _ _ i (List.mem_range.mpr hi)
    (List.nodup_range _) h1 h2 hst hmod

/-- Witness for the amended C4 theorem: a WAITING task with C = 3, T = 2
is released at tick 2. -/
theorem period_release_amended_witness :
    (0 < (systick_budget_phase exC4w).max_threads) ∧
    (0 < (systick_budget_phase exC4w).TCB_ARRAY.length) ∧
    (0 < (systick_budget_phase exC4w).thread_time_left_in_C.length) ∧
    ((tcb (systick_budget_phase exC4w) 0).state = .READY ∨
      (tcb (systick_budget_phase exC4w) 0).state = .WAITING ∨
      (tcb (systick_budget_phase exC4w) 0).state = .RUNNING) ∧
    (0 < (tcb (systick_budget_phase exC4w) 0).period) ∧
    ((systick_budget_phase exC4w).total_count %
      (tcb (systick_budget_phase exC4w) 0).period = 0) ∧
    ((tcb (systick_c_handler exC4w) 0).state = .READY ∧
      (systick_c_handler exC4w).thread_time_left_in_C.getD 0 0 =
        (tcb (systick_budget_phase exC4w) 0).computation_time) :=
  ⟨by decide, by decide, by decide, by decide, by decide, by decide,
   period_release_amended exC4w 0 (by decide) (by decide) (by decide)
     (by decide) (by decide) (by decide)⟩

/-- C4 counterexample: a BLOCKED task sitting exactly at its period
boundary (tick 2 = 1·T with T = 2) is left BLOCKED and its budget is left
at 1 ≠ C = 3 by the tick handler, so the release does not apply to every
admitted task in every state. -/
theorem period_release_skips_blocked :
    (tcb exC4 0).state = .BLOCKED ∧
    (tcb exC4 0).computation_time = 3 ∧
    (tcb exC4 0).period = 2 ∧
    (systick_c_handler exC4).total_count = 2 ∧
    (systick_c_handler exC4).total_count % (tcb exC4 0).period = 0 ∧
    (tcb (systick_c_handler exC4) 0).state = .BLOCKED ∧
    (systick_c_handler exC4).thread_time_left_in_C.getD 0 0 = 1 := by decide

/-! ## Budget wrap-around (claim C5) -/

/-- C5 (code bug): `thread_create` accepts `C = 0` (only the UB test
guards admission and `0/T` passes it), after which the tick handler's
`uint32_t` budget decrement wraps the RUNNING task's `budget_left` to
`2^32 − 1`, far above its `C = 0` — the invariant
`budget_left ≤ C` for READY/RUNNING/WAITING slots is violated in a
reachable state. -/
theorem budget_wraps_above_C :
    sys_thread_create exC5 0 0 2 = (exC5mid, 0) ∧
    (tcb exC5mid 0).computation_time = 0 ∧
    exC5mid.thread_time_left_in_C.getD 0 0 = 0 ∧
    (tcb exC5run 0).state = .RUNNING ∧
    (systick_c_handler exC5run).thread_time_left_in_C.getD 0 0 = 2 ^ 32 - 1 ∧
    (tcb (systick_c_handler exC5run) 0).state = .RUNNING := by
  have hub : ub_test exC5 0 2 = 0 := by
    rw [ub_test, ub_eval_eq]
    have hfil : (List.range exC5.max_threads).filter (ub_active exC5) = [] := by
      decide
    rw [hfil]
    norm_num [ub_table]
  have hcreate : sys_thread_create exC5 0 0 2 = (exC5mid, 0) := by
    unfold sys_thread_create
    rw [if_neg (by decide), if_neg (by simp [hub])]
    decide
  exact ⟨hcreate, by decide, by decide, by decide, by decide, by decide⟩

/-! ## Syscall dispatch of the mutex services (claim C1) -/

/-- C1 (code bug): the dispatcher's cases for SVC numbers 13, 14 and 15
are commented out in the source — no mutex service is invoked, no handle
is written back, and the saved frame and kernel state are returned
untouched (here from an initialised kernel, with the ceiling argument 3 in
the saved `r0`).  The final conjunct shows what `sys_mutex_init` would
have done with that argument: returned handle 0 and advanced the
allocation cursor — none of which happens through the trap path. -/
theorem svc_mutex_cases_do_nothing :
    svc_c_handler 13 fr1 kinit = .handled fr1 kinit ∧
    svc_c_handler 14 fr1 kinit = .handled fr1 kinit ∧
    svc_c_handler 15 fr1 kinit = .handled fr1 kinit ∧
    fr1.R0 = 3 ∧
    (sys_mutex_init kinit fr1.R0).map (fun r => (r.1.mutex_index, r.2)) =
      some (1, some 0) ∧
    kinit.mutex_index = 0 := by decide

/-! ## Mutex-table exhaustion (claim C9) -/

set_option maxRecDepth 8000 in
/-- C9 (code bug): the mutex table has 32 entries, `sys_mutex_init` never
checks the cursor against that bound, and the cursor-slot `locked_by`
test cannot detect exhaustion (allocated-but-unlocked slots still carry
`NOT_LOCKED`): the first 32 calls allocate slots 0..31 in FIFO order, and
the 33rd call reads `mutex_array[32]` — out of bounds (`none` in this
embedding) — instead of returning NULL. -/
theorem mutex_init_oob_at_33 :
    (mutex_init_iter 32).mutex_array.length = 32 ∧
    (mutex_init_iter 32).mutex_index = 32 ∧
    sys_mutex_init (mutex_init_iter 32) 0 = none ∧
    (∀ k, k < 32 → sys_mutex_init (mutex_init_iter k) 0 =
      some (mutex_init_iter (k + 1), some k)) := by decide

/-! ## HLP cross-resource check (claim C6) -/

/-- C6 counterexample: task 2 (dyn_prio 2) calls `mutex_lock` on mutex 1
while task 1 holds mutex 0 whose ceiling 0 ≤ 2 — the claimed HLP denial
condition — but mutex 1 is itself owned by task 0, and the call does not
deny-and-return-unchanged: it BLOCKS the caller and records mutex 1 in its
`waiting_mutexes` (the owner check runs before the HLP scan). -/
theorem hlp_check_skipped_when_owned :
    exC6owned.current_thread = 2 ∧
    (tcb exC6owned 2).priority = 2 ∧
    (kmutex exC6owned 0).locked_by = 1 ∧
    (kmutex exC6owned 0).prio_ceil = 0 ∧
    (kmutex exC6owned 1).locked_by = 0 ∧
    (tcb exC6owned 2).state = .RUNNING ∧
    (tcb exC6owned 2).waiting_mutex_bitmap = 0 ∧
    (sys_mutex_lock exC6owned 1).2 = .blocked ∧
    (tcb (sys_mutex_lock exC6owned 1).1 2).state = .BLOCKED ∧
    (tcb (sys_mutex_lock exC6owned 1).1 2).waiting_mutex_bitmap = 2 := by
  decide

/-- C6 (amended): the HLP cross-resource denial applies only when the
requested mutex is currently unowned: if the caller is not the idle slot,
passes the ceiling admission, does not already hold m, m's `locked_by` is
`NOT_LOCKED`, and some other mutex slot below `max_mutexes` is held, has
ceiling ≤ the caller's dyn_prio, and is neither m's slot nor held by the
caller, then the lock is denied and no TCB or mutex state changes.  (When
m is owned the caller blocks instead.) -/
theorem hlp_denial_amended (s : Kernel) (m : Nat)
    (hct : s.current_thread ≠ s.max_threads)
    (hceil : (kmutex s m).prio_ceil ≤ s.current_thread)
    (hdl : (tcb s s.current_thread).held_mutex_bitmap.testBit
      (kmutex s m).index = false)
    (hfree : (kmutex s m).locked_by = NOT_LOCKED)
    (hdeny : ∃ i, i < s.max_mutexes ∧ (kmutex s i).locked_by ≠ NOT_LOCKED ∧
      (kmutex s i).prio_ceil ≤ (tcb s s.current_thread).priority ∧
      i ≠ (kmutex s m).index ∧ (kmutex s i).locked_by ≠ s.current_thread) :
    sys_mutex_lock s m = (s, .denied) := by
  obtain ⟨i, hi, hl, hc, hne, hno⟩ := hdeny
  have hdb : lock_denied s s.current_thread (kmutex s m) = true := by
    rw [lock_denied, List.any_eq_true]
    refine ⟨i, List.mem_range.mpr hi, ?_⟩
    simp only [decide_eq_true_eq]
    exact ⟨hl, hc, by rintro (h | h); exact hne h; exact hno h⟩
  show (if s.current_thread = s.max_threads then _ else _) = _
  rw [if_neg hct,
      if_neg (by omega : ¬ s.current_thread < (kmutex s m).prio_ceil),
      if_neg (by simp [hdl]),
      if_neg (by simp [hfree]),
      if_pos hdb]

/-- Witness for the amended C6 theorem: same configuration as the
counterexample but with mutex 1 unowned — the lock is denied with no state
change. -/
theorem hlp_denial_amended_witness :
    (exC6free.current_thread ≠ exC6free.max_threads) ∧
    ((kmutex exC6free 1).prio_ceil ≤ exC6free.current_thread) ∧
    ((tcb exC6free exC6free.current_thread).held_mutex_bitmap.testBit
      (kmutex exC6free 1).index = false) ∧
    ((kmutex exC6free 1).locked_by = NOT_LOCKED) ∧
    (∃ i, i < exC6free.max_mutexes ∧
      (kmutex exC6free i).locked_by ≠ NOT_LOCKED ∧
      (kmutex exC6free i).prio_ceil ≤
        (tcb exC6free exC6free.current_thread).priority ∧
      i ≠ (kmutex exC6free 1).index ∧
      (kmutex exC6free i).locked_by ≠ exC6free.current_thread) ∧
    sys_mutex_lock exC6free 1 = (exC6free, .denied) :=
  ⟨by decide, by decide, by decide, by decide,
   ⟨0, by decide, by decide, by decide, by decide, by decide⟩,
   hlp_denial_amended exC6free 1 (by decide) (by decide) (by decide)
     (by decide) ⟨0, by decide, by decide, by decide, by decide, by decide⟩⟩

/-! ## thread_init rejection (claim C8) -/

/-- C8 (amended): when `max_threads > 14` or the 32-bit product
`max_threads * stack_words * 4` (computed mod 2^32) exceeds 32 KiB,
`sys_thread_init` returns −1 and leaves the TCB table — and every other
modelled field — unchanged, EXCEPT that it has already overwritten
`max_mutexes`, `max_threads`, `mutex_index` (to 0) and `stack_size` (to
the rounded size) in the global record before performing the check. -/
theorem thread_init_reject_amended (s : Kernel) (mt st fn mm : Nat)
    (h : 14 < mt ∨ 32 * 1024 < mt * st * 4 % 2 ^ 32) :
    sys_thread_init s mt st fn mm =
      ({ s with max_mutexes := mm, max_threads := mt, mutex_index := 0,
                stack_size := round_stack st }, -1) := by
  simp only [sys_thread_init]
  rw [if_pos h]

/-- C8 counterexample: `thread_init(15, 16, NULL, 4)` from a state whose
global record held `max_threads = 5`, `max_mutexes = 7`, `mutex_index = 3`
returns −1 but leaves `max_threads = 15`, `max_mutexes = 4`,
`mutex_index = 0` behind — the kernel state is not unchanged. -/
theorem thread_init_clobbers_globals :
    (sys_thread_init exC8 15 16 0 4).2 = -1 ∧
    exC8.max_threads = 5 ∧ exC8.max_mutexes = 7 ∧ exC8.mutex_index = 3 ∧
    (sys_thread_init exC8 15 16 0 4).1.max_threads = 15 ∧
    (sys_thread_init exC8 15 16 0 4).1.max_mutexes = 4 ∧
    (sys_thread_init exC8 15 16 0 4).1.mutex_index = 0 := by decide

/-- Witness for the amended C8 theorem at `max_threads = 15`. -/
theorem thread_init_reject_amended_witness :
    (14 < 15 ∨ 32 * 1024 < 15 * 16 * 4 % 2 ^ 32) ∧
    sys_thread_init exC8 15 16 0 4 =
      ({ exC8 with max_mutexes := 4, max_threads := 15, mutex_index := 0,
                   stack_size := round_stack 16 }, -1) :=
  ⟨Or.inl (by decide),
   thread_init_reject_amended exC8 15 16 0 4 (Or.inl (by decide))⟩

/-! ## Lock/unlock round-trip lemmas (claim C7) -/

theorem foldl_congr_mem {α β : Type} (f g : β → α → β) (l : List α) (b : β)
    (h : ∀ b a, a ∈ l → f b a = g b a) : l.foldl f b = l.foldl g b := by
  induction l generalizing b with
  | nil => rfl
  | cons x t ih =>
    rw [List.foldl_cons, List.foldl_cons, h b x (List.mem_cons_self x t)]
    exact ih _ (fun b a ha => h b a (List.mem_cons_of_mem x ha))

theorem clearBit32_lor_self (b m : Nat) (hb : b < 2 ^ 32) (hm : m < 32)
    (h : b.testBit m = false) : clearBit32 (b ||| (1 <<< m)) m = b := by
  unfold clearBit32
  rw [Nat.one_shiftLeft]
  apply Nat.eq_of_testBit_eq
  intro i
  rw [Nat.testBit_land, Nat.testBit_lor, Nat.testBit_xor,
      Nat.testBit_two_pow_sub_one, Nat.testBit_two_pow]
  by_cases him : m = i
  · subst him
    simp [h, hm]
  · by_cases hi32 : i < 32
    · simp [him, hi32]
    · have hbi : b.testBit i = false :=
        Nat.testBit_eq_false_of_lt
          (Nat.lt_of_lt_of_le hb (Nat.pow_le_pow_right (by omega) (by omega)))
      simp [him, hi32, hbi]

theorem unlock_restore_prio_congr (u s : Kernel) (ct held : Nat)
    (h : ∀ i, i < 32 → (kmutex u i).prio_ceil = (kmutex s i).prio_ceil) :
    unlock_restore_prio u ct held = unlock_restore_prio s ct held := by
  unfold unlock_restore_prio
  apply foldl_congr_mem
  intro p i hi
  rw [h i (List.mem_range.mp hi)]

theorem tcb_setTCB_oob (s : Kernel) (i : Nat) (t : TCB)
    (h : s.TCB_ARRAY.length ≤ i) : tcb (setTCB s i t) i = tcb s i := by
  show (s.TCB_ARRAY.set i t).getD i TCB.zero = _
  rw [List.set_eq_of_length_le h]
  rfl

theorem unlock_waiter_step_fields (idx : Nat) (s : Kernel) (i k : Nat) :
    (tcb (unlock_waiter_step idx s i) k).priority = (tcb s k).priority ∧
    (tcb (unlock_waiter_step idx s i) k).held_mutex_bitmap =
      (tcb s k).held_mutex_bitmap := by
  unfold unlock_waiter_step
  split
  · by_cases hik : i = k
    · subst hik
      by_cases hlen : i < s.TCB_ARRAY.length
      · rw [tcb_setTCB_self _ _ _ hlen]
        exact ⟨rfl, rfl⟩
      · rw [tcb_setTCB_oob _ _ _ (by omega)]
        exact ⟨rfl, rfl⟩
    · rw [tcb_setTCB_ne _ _ _ _ hik]
      exact ⟨rfl, rfl⟩
  · exact ⟨rfl, rfl⟩

theorem unlock_waiter_fold_fields (idx : Nat) (l : List Nat) (s : Kernel)
    (k : Nat) :
    (tcb (l.foldl (unlock_waiter_step idx) s) k).priority =
      (tcb s k).priority ∧
    (tcb (l.foldl (unlock_waiter_step idx) s) k).held_mutex_bitmap =
      (tcb s k).held_mutex_bitmap := by
  induction l generalizing s with
  | nil => exact ⟨rfl, rfl⟩
  | cons a t ih =>
    rw [List.foldl_cons]
    obtain ⟨h1, h2⟩ := ih (unlock_waiter_step idx s a)
    obtain ⟨g1, g2⟩ := unlock_waiter_step_fields idx s a k
    exact ⟨h1.trans g1, h2.trans g2⟩

theorem unlock_waiter_pass_fields (s : Kernel) (idx k : Nat) :
    (tcb (unlock_waiter_pass s idx) k).priority = (tcb s k).priority ∧
    (tcb (unlock_waiter_pass s idx) k).held_mutex_bitmap =
      (tcb s k).held_mutex_bitmap := by
  unfold unlock_waiter_pass
  exact unlock_waiter_fold_fields idx _ s k

/-! ## Lock/unlock round-trip (claim C7): supporting lemmas -/

theorem setTCB_len (s : Kernel) (j : Nat) (t : TCB) :
    (setTCB s j t).TCB_ARRAY.length = s.TCB_ARRAY.length := by
  simp [setTCB]

theorem tcb_release_owner (s : Kernel) (m k : Nat) :
    tcb (unlock_release_owner s m) k = tcb s k := rfl

theorem unlock_restore_prio_tcb_irrel (s : Kernel) (j : Nat) (t : TCB)
    (ct held : Nat) :
    unlock_restore_prio (setTCB s j t) ct held =
      unlock_restore_prio s ct held :=
  unlock_restore_prio_congr _ _ ct held (fun _ _ => rfl)

theorem unlock_restore_prio_release (s : Kernel) (m : Nat) (ct held : Nat)
    (hmlen : m < s.mutex_array.length) :
    unlock_restore_prio (unlock_release_owner s m) ct held =
      unlock_restore_prio s ct held := by
  apply unlock_restore_prio_congr
  intro i _
  show ((s.mutex_array.set m _).getD i KMutex.zero).prio_ceil = _
  by_cases him : i = m
  · subst him
    rw [getD_set_self _ _ hmlen]
  · rw [getD_set_ne _ _ (fun h => him h.symm)]
    rfl

theorem sys_mutex_unlock_main_fields (s : Kernel) (m : Nat)
    (hlen : s.current_thread < s.TCB_ARRAY.length)
    (hmlen : m < s.mutex_array.length) :
    (tcb (sys_mutex_unlock_main s m) s.current_thread).priority =
      unlock_restore_prio s s.current_thread
        (clearBit32 (tcb s s.current_thread).held_mutex_bitmap
          (kmutex s m).index) ∧
    (tcb (sys_mutex_unlock_main s m) s.current_thread).held_mutex_bitmap =
      clearBit32 (tcb s s.current_thread).held_mutex_bitmap
        (kmutex s m).index := by
  unfold sys_mutex_unlock_main
  have ht2 : tcb (setTCB (unlock_release_owner s m) s.current_thread
      { tcb (unlock_release_owner s m) s.current_thread with
        held_mutex_bitmap := clearBit32 (tcb (unlock_release_owner s m)
          s.current_thread).held_mutex_bitmap (kmutex s m).index })
      s.current_thread =
      { tcb s s.current_thread with
        held_mutex_bitmap := clearBit32
          (tcb s s.current_thread).held_mutex_bitmap (kmutex s m).index } := by
    rw [tcb_setTCB_self _ _ _
      (show s.current_thread < (unlock_release_owner s m).TCB_ARRAY.length from hlen)]
    rfl
  constructor
  · rw [(unlock_waiter_pass_fields _ _ _).1]
    rw [tcb_setTCB_self _ _ _ (by rw [setTCB_len]; exact hlen)]
    rw [ht2]
    rw [unlock_restore_prio_tcb_irrel, unlock_restore_prio_release s m _ _ hmlen]
  · rw [(unlock_waiter_pass_fields _ _ _).2]
    rw [tcb_setTCB_self _ _ _ (by rw [setTCB_len]; exact hlen)]
    rw [ht2]

theorem lock_acquire_current (s : Kernel) (m : Nat) :
    (lock_acquire s m).current_thread = s.current_thread := by
  unfold lock_acquire
  dsimp only
  split <;> rfl

theorem lock_acquire_arr (s : Kernel) (m : Nat) :
    (lock_acquire s m).mutex_array =
      s.mutex_array.set m { kmutex s m with locked_by := s.current_thread } := by
  unfold lock_acquire
  dsimp only
  split <;> rfl

theorem lock_acquire_tcblen (s : Kernel) (m : Nat) :
    (lock_acquire s m).TCB_ARRAY.length = s.TCB_ARRAY.length := by
  unfold lock_acquire
  dsimp only
  split <;> simp [setTCB]

theorem lock_acquire_held (s : Kernel) (m : Nat)
    (hlen : s.current_thread < s.TCB_ARRAY.length)
    (hidx : (kmutex s m).index = m) :
    (tcb (lock_acquire s m) s.current_thread).held_mutex_bitmap =
      (tcb s s.current_thread).held_mutex_bitmap ||| (1 <<< m) := by
  unfold lock_acquire
  dsimp only
  split
  · rw [tcb_setTCB_self _ _ _ (by simpa [setTCB] using hlen)]
    rw [tcb_setTCB_self _ _ _ (by simpa [setTCB] using hlen)]
    rw [tcb_setTCB_self _ _ _ (by simpa [setTCB] using hlen)]
    rw [hidx]
    rfl
  · rw [tcb_setTCB_self _ _ _ (by simpa [setTCB] using hlen)]
    rw [tcb_setTCB_self _ _ _ (by simpa [setTCB] using hlen)]
    rw [hidx]
    rfl

theorem unlock_after_acquire (s u1 : Kernel) (ct m : Nat)
    (hctu : u1.current_thread = ct)
    (harr : u1.mutex_array =
      s.mutex_array.set m { kmutex s m with locked_by := ct })
    (hheld1 : (tcb u1 ct).held_mutex_bitmap =
      (tcb s ct).held_mutex_bitmap ||| (1 <<< m))
    (hlen : ct < u1.TCB_ARRAY.length)
    (hmlen : m < s.mutex_array.length)
    (hm32 : m < 32)
    (hctNL : ct < NOT_LOCKED)
    (hidx : (kmutex s m).index = m)
    (hheld : (tcb s ct).held_mutex_bitmap.testBit m = false)
    (hblt : (tcb s ct).held_mutex_bitmap < 2 ^ 32)
    (hinv : unlock_restore_prio s ct (tcb s ct).held_mutex_bitmap =
      (tcb s ct).priority) :
    (tcb (sys_mutex_unlock u1 m) ct).priority = (tcb s ct).priority ∧
    (tcb (sys_mutex_unlock u1 m) ct).held_mutex_bitmap =
      (tcb s ct).held_mutex_bitmap := by
  have hkmu : kmutex u1 m = { kmutex s m with locked_by := ct } := by
    show u1.mutex_array.getD m KMutex.zero = _
    rw [harr]
    exact getD_set_self _ _ hmlen
  have hidx1 : (kmutex u1 m).index = m := by rw [hkmu]; exact hidx
  have h1 : ¬ ((kmutex u1 m).locked_by = NOT_LOCKED) := by
    rw [hkmu]
    show ¬ (ct = NOT_LOCKED)
    omega
  have h2 : ¬ ((kmutex u1 m).locked_by ≠ u1.current_thread) := by
    rw [hkmu, hctu]
    exact fun h => h rfl
  have h3p : (tcb u1 u1.current_thread).held_mutex_bitmap.testBit
      (kmutex u1 m).index = true := by
    rw [hctu, hidx1, hheld1, Nat.testBit_lor, Nat.one_shiftLeft,
        Nat.testBit_two_pow_self, Bool.or_true]
  have hmain : sys_mutex_unlock u1 m = sys_mutex_unlock_main u1 m := by
    show (if (kmutex u1 m).locked_by = NOT_LOCKED then u1
      else if (kmutex u1 m).locked_by ≠ u1.current_thread then u1
      else if ¬ ((tcb u1 u1.current_thread).held_mutex_bitmap.testBit
        (kmutex u1 m).index = true) then u1
      else sys_mutex_unlock_main u1 m) = sys_mutex_unlock_main u1 m
    rw [if_neg h1, if_neg h2, if_neg (not_not_intro h3p)]
  have hmlen1 : m < u1.mutex_array.length := by
    rw [harr]
    simpa using hmlen
  obtain ⟨f1, f2⟩ := sys_mutex_unlock_main_fields u1 m
    (by rw [hctu]; exact hlen) hmlen1
  rw [hctu] at f1 f2
  have hcb : clearBit32 (tcb u1 ct).held_mutex_bitmap (kmutex u1 m).index =
      (tcb s ct).held_mutex_bitmap := by
    rw [hidx1, hheld1]
    exact clearBit32_lor_self _ _ hblt hm32 hheld
  constructor
  · rw [hmain, f1, hcb, ← hinv]
    apply unlock_restore_prio_congr
    intro i _
    show (u1.mutex_array.getD i KMutex.zero).prio_ceil = _
    rw [harr]
    by_cases him : i = m
    · subst him
      rw [getD_set_self _ _ hmlen]
    · rw [getD_set_ne _ _ (fun h => him h.symm)]
      rfl
  · rw [hmain, f2, hcb]

/-- C7: for a task `t` (the current thread, a user slot) and a mutex `m`
that `t` does not hold, `mutex_lock(m)` immediately followed by
`mutex_unlock(m)` with `m` uncontended leaves `t`'s `dyn_prio` and
`held_mutexes` bitmap exactly as they were before the lock — on every
path (ceiling kill, HLP denial, successful acquisition).  The hypotheses
are the well-formedness facts of reachable states: array bounds, the
mutex's `index` field equal to its slot, a 32-bit held bitmap, and
`dyn_prio = min(static_prio, min{ceiling(h) : h held})` as computed by the
unlock restoration loop. -/
theorem lock_unlock_roundtrip (s : Kernel) (m : Nat)
    (hct : s.current_thread < s.max_threads)
    (hmax : s.max_threads ≤ 14)
    (hlen : s.current_thread < s.TCB_ARRAY.length)
    (hmlen : m < s.mutex_array.length)
    (hm32 : m < 32)
    (hidx : (kmutex s m).index = m)
    (hfree : (kmutex s m).locked_by = NOT_LOCKED)
    (hheld : (tcb s s.current_thread).held_mutex_bitmap.testBit m = false)
    (hblt : (tcb s s.current_thread).held_mutex_bitmap < 2 ^ 32)
    (hinv : unlock_restore_prio s s.current_thread
        (tcb s s.current_thread).held_mutex_bitmap =
      (tcb s s.current_thread).priority) :
    (tcb (sys_mutex_unlock (sys_mutex_lock s m).1 m) s.current_thread).priority =
      (tcb s s.current_thread).priority ∧
    (tcb (sys_mutex_unlock (sys_mutex_lock s m).1 m)
        s.current_thread).held_mutex_bitmap =
      (tcb s s.current_thread).held_mutex_bitmap := by
  have hct_ne : ¬ (s.current_thread = s.max_threads) := by omega
  have hdl : ¬ ((tcb s s.current_thread).held_mutex_bitmap.testBit
      (kmutex s m).index = true) := by
    rw [hidx, hheld]
    exact fun h => nomatch h
  have hnl : ¬ ((kmutex s m).locked_by ≠ NOT_LOCKED) := fun h => h hfree
  by_cases hkill : s.current_thread < (kmutex s m).prio_ceil
  · have hkeq : sys_thread_kill s = some (setTCB s s.current_thread
        { tcb s s.current_thread with state := .DONE }) := by
      show (if s.current_thread = s.max_threads + 1 then _ else _) = _
      rw [if_neg (by omega), if_neg hct_ne]
    have hlockeq : sys_mutex_lock s m = (setTCB s s.current_thread
        { tcb s s.current_thread with state := .DONE }, .killed) := by
      show (if s.current_thread = s.max_threads then _
        else if s.current_thread < (kmutex s m).prio_ceil then _ else _) = _
      rw [if_neg hct_ne, if_pos hkill, hkeq]
    rw [hlockeq]
    have hueq : sys_mutex_unlock (setTCB s s.current_thread
        { tcb s s.current_thread with state := .DONE }) m =
        setTCB s s.current_thread
          { tcb s s.current_thread with state := .DONE } := by
      exact if_pos hfree
    rw [hueq, tcb_setTCB_self _ _ _ hlen]
    exact ⟨rfl, rfl⟩
  · by_cases hdeny : lock_denied s s.current_thread (kmutex s m) = true
    · have hlockeq : sys_mutex_lock s m = (s, .denied) := by
        show (if s.current_thread = s.max_threads then _ else _) = _
        rw [if_neg hct_ne, if_neg hkill, if_neg hdl, if_neg hnl, if_pos hdeny]
      rw [hlockeq]
      have hueq : sys_mutex_unlock s m = s := if_pos hfree
      rw [hueq]
      exact ⟨rfl, rfl⟩
    · have hlockeq : sys_mutex_lock s m = (lock_acquire s m, .acquired) := by
        show (if s.current_thread = s.max_threads then _ else _) = _
        rw [if_neg hct_ne, if_neg hkill, if_neg hdl, if_neg hnl,
            if_neg hdeny]
      rw [hlockeq]
      exact unlock_after_acquire s (lock_acquire s m) s.current_thread m
        (lock_acquire_current s m) (lock_acquire_arr s m)
        (lock_acquire_held s m hlen hidx)
        (by rw [lock_acquire_tcblen]; exact hlen)
        hmlen hm32 (by unfold NOT_LOCKED; omega) hidx hheld hblt hinv

/-- Witness for the C7 theorem: task 4 (dyn_prio 1, holding mutex 3 with
ceiling 1) locks then unlocks the free mutex 1 (ceiling 2); its priority
and held bitmap return to 1 and 8. -/
theorem lock_unlock_roundtrip_witness :
    (exC7.current_thread < exC7.max_threads) ∧
    (exC7.max_threads ≤ 14) ∧
    (exC7.current_thread < exC7.TCB_ARRAY.length) ∧
    (1 < exC7.mutex_array.length) ∧
    (1 < 32) ∧
    ((kmutex exC7 1).index = 1) ∧
    ((kmutex exC7 1).locked_by = NOT_LOCKED) ∧
    ((tcb exC7 exC7.current_thread).held_mutex_bitmap.testBit 1 = false) ∧
    ((tcb exC7 exC7.current_thread).held_mutex_bitmap < 2 ^ 32) ∧
    (unlock_restore_prio exC7 exC7.current_thread
        (tcb exC7 exC7.current_thread).held_mutex_bitmap =
      (tcb exC7 exC7.current_thread).priority) ∧
    ((tcb (sys_mutex_unlock (sys_mutex_lock exC7 1).1 1)
        exC7.current_thread).priority =
      (tcb exC7 exC7.current_thread).priority ∧
    (tcb (sys_mutex_unlock (sys_mutex_lock exC7 1).1 1)
        exC7.current_thread).held_mutex_bitmap =
      (tcb exC7 exC7.current_thread).held_mutex_bitmap) :=
  ⟨by decide, by decide, by decide, by decide, by decide, by decide,
   by decide, by decide, by decide, by decide,
   lock_unlock_roundtrip exC7 1 (by decide) (by decide) (by decide)
     (by decide) (by decide) (by decide) (by decide) (by decide) (by decide)
     (by decide)⟩

/-- Witness for the C10 theorem: re-creating the WAITING slot 0 (C = 1,
T = 4) with a candidate (C = 1, T = 2) sums both and counts both. -/
theorem thread_create_double_count_witness :
    (0 < exC10.max_threads) ∧
    ((tcb exC10 0).state = .WAITING ∨ (tcb exC10 0).state = .RUNNING ∨
      (tcb exC10 0).state = .BLOCKED) ∧
    ((sys_thread_create exC10 0 1 2).2 =
      (if ub_test exC10 (1 : Int) (2 : Int) < 0 then (-1 : Int) else 0) ∧
    ub_eval exC10 (1 : Int) (2 : Int) =
      ((1 : Rat) / (2 : Rat) + ubU exC10 0 +
        (((List.range exC10.max_threads).filter
          (fun i => ub_active exC10 i && decide (i ≠ 0))).map (ubU exC10)).sum,
       2 + ((List.range exC10.max_threads).filter
        (fun i => ub_active exC10 i && decide (i ≠ 0))).length)) :=
  ⟨by decide, by decide,
   thread_create_double_count exC10 0 1 2 (by decide) (by decide)⟩
